import Mathlib

/-!
Shallow embedding of the AI_Hub backend (FastAPI + SQLAlchemy) for
specification checking.  The database is modelled as in-memory lists of
rows; each endpoint / service method becomes a function
`AppState → args → Except ApiError Out × AppState` that mirrors the
Python control flow statement by statement.  Timestamps are seconds
(`Nat`), `datetime.utcnow()` becomes an explicit `now` argument, and the
password hashing primitive is passed in as a function parameter.
-/

deriving instance DecidableEq for Except

namespace AIHub

/-- Listing status enumeration, from `app/models/agent.py` (`AgentStatus`). -/
inductive AgentStatus
  | pending
  | approved
  | rejected
deriving DecidableEq, Repr

/-- A row of the `users` table, from `app/models/user.py`. -/
structure User where
  id : Nat
  email : String
  username : String
  password_hash : String
  roles : List String
  is_active : Bool
  otp_code : Option String
  otp_expires_at : Option Nat
  approved_by : Option Nat
  approved_at : Option Nat
deriving DecidableEq, Repr

/-- Embedding of `User.is_admin` from `app/models/user.py`: membership of `"admin"` in the role list. -/
def User.is_admin (u : User) : Bool :=
  u.roles.contains "admin"

/-- A row of the `agents` table, from `app/models/agent.py`. -/
structure Agent where
  id : Nat
  name : String
  description : String
  app_url : String
  category : String
  status : AgentStatus
  author_id : Nat
  approved_by : Option Nat
  approved_at : Option Nat
deriving DecidableEq, Repr

/-- A row of the `agent_views` table. -/
structure AgentView where
  agent_id : Nat
  user_id : Nat
  viewed_at : Nat
deriving DecidableEq, Repr

/-- A row of the `agent_clicks` table. -/
structure AgentClick where
  agent_id : Nat
  user_id : Nat
  click_type : String
  referrer : Option String
  clicked_at : Nat
deriving DecidableEq, Repr

/-- A row of the `agent_sessions` table (durations are fractional seconds). -/
structure AgentSession where
  agent_id : Nat
  user_id : Nat
  session_start : ℚ
  session_end : ℚ
  duration_seconds : ℚ
deriving DecidableEq, Repr

/-- A row of the `agent_ratings` table. -/
structure AgentRating where
  agent_id : Nat
  user_id : Nat
  rating : Int
  rated_at : Nat
deriving DecidableEq, Repr

/-- A row of the `agent_reviews` table. -/
structure AgentReview where
  id : Nat
  agent_id : Nat
  user_id : Nat
  rating : Int
  review_text : String
  is_helpful_count : Nat
  reviewed_at : Nat
  updated_at : Nat
deriving DecidableEq, Repr

/-- The relational store: one list of rows per table, plus the sequential
id counters the database assigns at insertion. -/
structure AppState where
  users : List User
  agents : List Agent
  views : List AgentView
  clicks : List AgentClick
  sessions : List AgentSession
  ratings : List AgentRating
  reviews : List AgentReview
  next_user_id : Nat
  next_agent_id : Nat
  next_review_id : Nat
deriving DecidableEq, Repr

/-- The error kinds raised by the endpoints (each corresponds to one
`HTTPException` site in the source). `typeError` marks the Python crash
that `verify_otp_and_login` would hit when `otp_code` is set but
`otp_expires_at` is `NULL`. -/
inductive ApiError
  | notFound
  | emailRegistered
  | usernameTaken
  | invalidUsername
  | notActivated
  | otpExpired
  | otpInvalid
  | alreadyReviewed
  | alreadyActive
  | alreadyInactive
  | selfDeactivate
  | selfReject
  | rejectActive
  | wrongPassword
  | alreadyAdmin
  | inactiveAdminGrant
  | invalidCategory
  | invalidRating
  | notApproved
  | textTooShort
  | forbidden
  | invalidClickType
  | negativeDuration
  | typeError
deriving DecidableEq, Repr

/-- SQLAlchemy's pattern of mutating the single row returned by
`.first()`: rewrite the first element satisfying `p` with `f`. -/
def updateFirst {α : Type} (p : α → Bool) (f : α → α) : List α → List α
  | [] => []
  | x :: xs => if p x then f x :: xs else x :: updateFirst p f xs

/-! ### Identity lifecycle (`app/services/auth_service.py`) -/

/-- Embedding of `AuthService.register_user`: email-uniqueness check, then
username-uniqueness check, then insertion of an inactive user with role
list `["user"]` and `hash password` stored; returns the message and the
fresh id. -/
def registerUser (hash : String → String) (s : AppState)
    (email username password : String) :
    Except ApiError (String × Nat) × AppState :=
  if (s.users.find? (fun u => u.email == email)).isSome then
    (Except.error ApiError.emailRegistered, s)
  else if (s.users.find? (fun u => u.username == username)).isSome then
    (Except.error ApiError.usernameTaken, s)
  else
    let db_user : User :=
      { id := s.next_user_id
        email := email
        username := username
        password_hash := hash password
        roles := ["user"]
        is_active := false
        otp_code := none
        otp_expires_at := none
        approved_by := none
        approved_at := none }
    (Except.ok ("Registration successful. Waiting for admin approval.", db_user.id),
     { s with users := s.users ++ [db_user], next_user_id := s.next_user_id + 1 })

/-- Embedding of `AuthService.initiate_login`: username lookup, active check, then the
generated OTP (passed in, mirroring `generate_otp()`) is stored with
expiry `now + ttl_minutes * 60`.  Returns the OTP and its TTL. -/
def initiateLogin (s : AppState) (username : String)
    (generated_otp : String) (now ttl_minutes : Nat) :
    Except ApiError (String × Nat) × AppState :=
  match s.users.find? (fun u => u.username == username) with
  | none => (Except.error ApiError.invalidUsername, s)
  | some user =>
    if !user.is_active then
      (Except.error ApiError.notActivated, s)
    else
      let users' := updateFirst (fun u => u.username == username)
        (fun u => { u with otp_code := some generated_otp,
                           otp_expires_at := some (now + ttl_minutes * 60) }) s.users
      (Except.ok (generated_otp, ttl_minutes), { s with users := users' })

/-- The snapshot `verify_otp_and_login` returns alongside the bearer
token (the fields the claims care about; the token itself is bound to
`username`). -/
structure LoginOut where
  user_id : Nat
  username : String
  roles : List String
  is_active : Bool
deriving DecidableEq, Repr

/-- Embedding of `AuthService.verify_otp_and_login`: username lookup; `OtpExpired`
when no code is on file or the expiry has passed (strict `<`);
`OtpInvalid` on mismatch; on success the stored code and expiry are
cleared and the token + user snapshot is returned. -/
def verifyOtp (s : AppState) (username otp_code : String) (now : Nat) :
    Except ApiError LoginOut × AppState :=
  match s.users.find? (fun u => u.username == username) with
  | none => (Except.error ApiError.invalidUsername, s)
  | some user =>
    match user.otp_code with
    | none => (Except.error ApiError.otpExpired, s)
    | some stored =>
      match user.otp_expires_at with
      | none => (Except.error ApiError.typeError, s)
      | some expiry =>
        if expiry < now then
          (Except.error ApiError.otpExpired, s)
        else if stored != otp_code then
          (Except.error ApiError.otpInvalid, s)
        else
          let users' := updateFirst (fun u => u.username == username)
            (fun u => { u with otp_code := none, otp_expires_at := none }) s.users
          (Except.ok { user_id := user.id
                       username := user.username
                       roles := user.roles
                       is_active := user.is_active },
           { s with users := users' })

/-- Embedding of `approve_user` (`admin.py`) / `AuthService.approve_user`: 404 when
absent, 400 when already active, else activate and record approver and
timestamp. -/
def approveUser (s : AppState) (user_id approver_id now : Nat) :
    Except ApiError Nat × AppState :=
  match s.users.find? (fun u => u.id == user_id) with
  | none => (Except.error ApiError.notFound, s)
  | some user =>
    if user.is_active then
      (Except.error ApiError.alreadyActive, s)
    else
      let users' := updateFirst (fun u => u.id == user_id)
        (fun u => { u with is_active := true,
                           approved_by := some approver_id,
                           approved_at := some now }) s.users
      (Except.ok user_id, { s with users := users' })

/-- Embedding of `deactivate_user` (`admin.py`): 404 when absent, 400 on
self-deactivation, 400 when already inactive, else clear the active
flag.  Note: the stored OTP fields are left untouched. -/
def deactivateUser (s : AppState) (user_id admin_id : Nat) :
    Except ApiError Nat × AppState :=
  match s.users.find? (fun u => u.id == user_id) with
  | none => (Except.error ApiError.notFound, s)
  | some user =>
    if user.id == admin_id then
      (Except.error ApiError.selfDeactivate, s)
    else if !user.is_active then
      (Except.error ApiError.alreadyInactive, s)
    else
      let users' := updateFirst (fun u => u.id == user_id)
        (fun u => { u with is_active := false }) s.users
      (Except.ok user_id, { s with users := users' })

/-- Embedding of `reject_user` (`admin.py`): 404 when absent, 400 when the target is
active, 400 on self-rejection, else delete the row. -/
def rejectUser (s : AppState) (user_id admin_id : Nat) :
    Except ApiError Nat × AppState :=
  match s.users.find? (fun u => u.id == user_id) with
  | none => (Except.error ApiError.notFound, s)
  | some user =>
    if user.is_active then
      (Except.error ApiError.rejectActive, s)
    else if user.id == admin_id then
      (Except.error ApiError.selfReject, s)
    else
      (Except.ok user_id,
       { s with users := s.users.eraseP (fun u => u.id == user_id) })

/-- Embedding of `make_user_admin` (`admin.py`): 404 when absent, 400 when inactive,
400 when already an admin, else add the role (deduplicated). -/
def makeAdmin (s : AppState) (user_id : Nat) :
    Except ApiError Nat × AppState :=
  match s.users.find? (fun u => u.id == user_id) with
  | none => (Except.error ApiError.notFound, s)
  | some user =>
    if !user.is_active then
      (Except.error ApiError.inactiveAdminGrant, s)
    else if user.roles.contains "admin" then
      (Except.error ApiError.alreadyAdmin, s)
    else
      let users' := updateFirst (fun u => u.id == user_id)
        (fun u => { u with roles := (u.roles ++ ["admin"]).dedup }) s.users
      (Except.ok user_id, { s with users := users' })

/-! ### Listing approval workflow and engagement (`agents.py`, `admin.py`) -/

/-- The category enumeration from `app/models/agent.py` (`AgentCategory`). -/
def validCategories : List String :=
  ["business", "healthcare", "finance", "supply_chain",
   "insurance", "hr", "operations", "engineering"]

/-- The click-type enumeration from `app/models/agent.py` (`ClickType`). -/
def validClickTypes : List String :=
  ["modal_open", "new_tab", "external_link"]

/-- Embedding of `create_agent` (`agents.py`): category validated against the fixed
enumeration, then a pending listing is inserted for the author. -/
def createAgent (s : AppState) (author_id : Nat)
    (name description app_url category : String) :
    Except ApiError Nat × AppState :=
  if !(validCategories.contains category) then
    (Except.error ApiError.invalidCategory, s)
  else
    let db_agent : Agent :=
      { id := s.next_agent_id
        name := name
        description := description
        app_url := app_url
        category := category
        status := AgentStatus.pending
        author_id := author_id
        approved_by := none
        approved_at := none }
    (Except.ok db_agent.id,
     { s with agents := s.agents ++ [db_agent], next_agent_id := s.next_agent_id + 1 })

/-- Embedding of `approve_reject_agent` (`admin.py`): 404 when the listing is absent,
400 ("already been reviewed") when its status is not `pending`, else the
terminal status, approver and timestamp are written. -/
def decideAgent (s : AppState) (agent_id : Nat) (approve : Bool)
    (admin_id now : Nat) :
    Except ApiError AgentStatus × AppState :=
  match s.agents.find? (fun a => a.id == agent_id) with
  | none => (Except.error ApiError.notFound, s)
  | some agent =>
    if agent.status != AgentStatus.pending then
      (Except.error ApiError.alreadyReviewed, s)
    else
      let new_status := if approve then AgentStatus.approved else AgentStatus.rejected
      let agents' := updateFirst (fun a => a.id == agent_id)
        (fun a => { a with status := new_status,
                           approved_by := some admin_id,
                           approved_at := some now }) s.agents
      (Except.ok new_status, { s with agents := agents' })

/-- Embedding of `get_agent` (`agents.py`): 404 when absent; 403 when the listing is
not approved and the viewer is neither an admin nor its author; for an
approved listing a view row is inserted unless the same viewer already
has one within the trailing hour; returns the view count. -/
def getAgent (s : AppState) (agent_id : Nat) (viewer : User) (now : Nat) :
    Except ApiError Nat × AppState :=
  match s.agents.find? (fun a => a.id == agent_id) with
  | none => (Except.error ApiError.notFound, s)
  | some agent =>
    if (!viewer.is_admin && agent.status != AgentStatus.approved)
        && agent.author_id != viewer.id then
      (Except.error ApiError.forbidden, s)
    else
      let s' :=
        if agent.status == AgentStatus.approved then
          let recent_view := s.views.find? (fun v =>
            v.agent_id == agent_id && v.user_id == viewer.id
              && decide (now - 3600 ≤ v.viewed_at))
          if recent_view.isNone then
            { s with views := s.views ++
                [{ agent_id := agent_id, user_id := viewer.id, viewed_at := now }] }
          else s
        else s
      (Except.ok (s'.views.filter (fun v => v.agent_id == agent_id)).length, s')

/-- Embedding of `track_agent_click` (`agents.py`): existence check, click-type
enumeration check, then an immutable click row is appended. -/
def trackClick (s : AppState) (agent_id user_id : Nat)
    (click_type : String) (referrer : Option String) (now : Nat) :
    Except ApiError Nat × AppState :=
  match s.agents.find? (fun a => a.id == agent_id) with
  | none => (Except.error ApiError.notFound, s)
  | some _ =>
    if !(validClickTypes.contains click_type) then
      (Except.error ApiError.invalidClickType, s)
    else
      let click : AgentClick :=
        { agent_id := agent_id, user_id := user_id,
          click_type := click_type, referrer := referrer, clicked_at := now }
      (Except.ok agent_id, { s with clicks := s.clicks ++ [click] })

/-- Embedding of `track_agent_session` (`agents.py`): existence check, non-negative
duration check, then a session row with `start = now - duration`,
`end = now` is appended. -/
def trackSession (s : AppState) (agent_id user_id : Nat)
    (duration_seconds : ℚ) (now : Nat) :
    Except ApiError Nat × AppState :=
  match s.agents.find? (fun a => a.id == agent_id) with
  | none => (Except.error ApiError.notFound, s)
  | some _ =>
    if duration_seconds < 0 then
      (Except.error ApiError.negativeDuration, s)
    else
      let sess : AgentSession :=
        { agent_id := agent_id, user_id := user_id,
          session_start := (now : ℚ) - duration_seconds,
          session_end := (now : ℚ), duration_seconds := duration_seconds }
      (Except.ok agent_id, { s with sessions := s.sessions ++ [sess] })

/-! ### Ratings and reviews (`agents.py`) -/

/-- Python's `str.strip()`: drop whitespace from both ends.  Written
over the character list (rather than core's `String.trim`, which is
defined by well-founded recursion and does not evaluate inside the
kernel). -/
def pyStrip (t : String) : String :=
  String.mk
    (((t.data.dropWhile Char.isWhitespace).reverse.dropWhile
      Char.isWhitespace).reverse)

/-- Round-half-to-even of a rational, the behaviour of Python's
builtin `round` on an exact value. -/
def roundHalfEven (q : ℚ) : ℤ :=
  let f : ℤ := q.floor
  if q - (f : ℚ) < 1 / 2 then f
  else if (1 : ℚ) / 2 < q - (f : ℚ) then f + 1
  else if f % 2 = 0 then f else f + 1

/-- Python's `round(x, 2)` on an exact rational value. -/
def round2 (q : ℚ) : ℚ :=
  (roundHalfEven (q * 100) : ℚ) / 100

/-- All rating rows of one listing, in table order. -/
def agentRatings (s : AppState) (agent_id : Nat) : List AgentRating :=
  s.ratings.filter (fun r => r.agent_id == agent_id)

/-- The arithmetic mean of a listing's stored rating values (`0` when
there are none, matching the guarded read paths). -/
def ratingMean (s : AppState) (agent_id : Nat) : ℚ :=
  let rs := agentRatings s agent_id
  if rs.length = 0 then 0
  else ((rs.map (fun r => (r.rating : ℚ))).sum) / (rs.length : ℚ)

/-- The upsert shared by `rate_agent` and `create_review`: update the
caller's existing rating row in place, or insert a fresh one. -/
def upsertRating (s : AppState) (agent_id user_id : Nat)
    (stars : Int) (now : Nat) : AppState :=
  match s.ratings.find? (fun r => r.agent_id == agent_id && r.user_id == user_id) with
  | some _ =>
    let ratings' := updateFirst
      (fun r => r.agent_id == agent_id && r.user_id == user_id)
      (fun r => { r with rating := stars, rated_at := now }) s.ratings
    { s with ratings := ratings' }
  | none =>
    let new_rating : AgentRating :=
      { agent_id := agent_id, user_id := user_id, rating := stars, rated_at := now }
    { s with ratings := s.ratings ++ [new_rating] }

/-- Result of `rate_agent`. -/
structure RateOut where
  rating : Int
  average_rating : ℚ
  total_ratings : Nat
deriving DecidableEq, Repr

/-- Embedding of `rate_agent` (`agents.py`): existence check, 1–5 range check, upsert
of the caller's rating, then the mean over all of the listing's rating
rows rounded to 2 decimals is returned with the count. -/
def rateAgent (s : AppState) (agent_id user_id : Nat)
    (stars : Int) (now : Nat) :
    Except ApiError RateOut × AppState :=
  match s.agents.find? (fun a => a.id == agent_id) with
  | none => (Except.error ApiError.notFound, s)
  | some _ =>
    if stars < 1 || 5 < stars then
      (Except.error ApiError.invalidRating, s)
    else
      let s' := upsertRating s agent_id user_id stars now
      let all_ratings := agentRatings s' agent_id
      let avg : ℚ := ((all_ratings.map (fun r => (r.rating : ℚ))).sum) / (all_ratings.length : ℚ)
      (Except.ok { rating := stars
                   average_rating := round2 avg
                   total_ratings := all_ratings.length }, s')

/-- Embedding of `create_review` (`agents.py`): existence check, approved-status
check, 1–5 range check, trimmed-length-≥-10 check; then the caller's
review row is upserted and, in the same operation, the caller's rating
row is upserted to the same stars value. -/
def createReview (s : AppState) (agent_id user_id : Nat)
    (stars : Int) (review_text : String) (now : Nat) :
    Except ApiError Int × AppState :=
  match s.agents.find? (fun a => a.id == agent_id) with
  | none => (Except.error ApiError.notFound, s)
  | some agent =>
    if agent.status != AgentStatus.approved then
      (Except.error ApiError.notApproved, s)
    else if stars < 1 || 5 < stars then
      (Except.error ApiError.invalidRating, s)
    else if (pyStrip review_text).length < 10 then
      (Except.error ApiError.textTooShort, s)
    else
      let s1 :=
        match s.reviews.find? (fun r => r.agent_id == agent_id && r.user_id == user_id) with
        | some _ =>
          let reviews' := updateFirst
            (fun r => r.agent_id == agent_id && r.user_id == user_id)
            (fun r => { r with rating := stars, review_text := review_text,
                               updated_at := now }) s.reviews
          { s with reviews := reviews' }
        | none =>
          let new_review : AgentReview :=
            { id := s.next_review_id, agent_id := agent_id, user_id := user_id,
              rating := stars, review_text := review_text, is_helpful_count := 0,
              reviewed_at := now, updated_at := now }
          { s with reviews := s.reviews ++ [new_review],
                   next_review_id := s.next_review_id + 1 }
      let s2 := upsertRating s1 agent_id user_id stars now
      (Except.ok stars, s2)

/-- Embedding of `delete_review` (`agents.py`): 404 when the caller has no review on
this listing, else exactly that review row is deleted. -/
def deleteReview (s : AppState) (agent_id user_id : Nat) :
    Except ApiError Nat × AppState :=
  match s.reviews.find? (fun r => r.agent_id == agent_id && r.user_id == user_id) with
  | none => (Except.error ApiError.notFound, s)
  | some _ =>
    let reviews' := s.reviews.eraseP
      (fun r => r.agent_id == agent_id && r.user_id == user_id)
    (Except.ok agent_id, { s with reviews := reviews' })

/-- Embedding of `mark_review_helpful` (`agents.py`): 404 when absent, else the
helpful counter is incremented (no dedup). -/
def markHelpful (s : AppState) (agent_id review_id : Nat) :
    Except ApiError Nat × AppState :=
  match s.reviews.find? (fun r => r.id == review_id && r.agent_id == agent_id) with
  | none => (Except.error ApiError.notFound, s)
  | some rev =>
    let reviews' := updateFirst (fun r => r.id == review_id && r.agent_id == agent_id)
      (fun r => { r with is_helpful_count := r.is_helpful_count + 1 }) s.reviews
    (Except.ok (rev.is_helpful_count + 1), { s with reviews := reviews' })

/-- Result of `get_agent_rating_stats`. -/
structure StatsOut where
  average_rating : ℚ
  rating_count : Nat
  review_count : Nat
  dist1 : Nat
  dist2 : Nat
  dist3 : Nat
  dist4 : Nat
  dist5 : Nat
deriving DecidableEq, Repr

/-- Embedding of `get_agent_rating_stats` (`agents.py`): 404 when the listing is
absent; otherwise the mean (0 when no ratings), counts, and the
per-star-value distribution over the listing's rating rows. -/
def ratingStats (s : AppState) (agent_id : Nat) :
    Except ApiError StatsOut × AppState :=
  match s.agents.find? (fun a => a.id == agent_id) with
  | none => (Except.error ApiError.notFound, s)
  | some _ =>
    let rs := agentRatings s agent_id
    let dist : Int → Nat := fun i => (rs.filter (fun r => r.rating == i)).length
    let review_count := (s.reviews.filter (fun r => r.agent_id == agent_id)).length
    let avg : ℚ :=
      if rs.length = 0 then 0
      else ((rs.map (fun r => (r.rating : ℚ))).sum) / (rs.length : ℚ)
    (Except.ok { average_rating := round2 avg
                 rating_count := rs.length
                 review_count := review_count
                 dist1 := dist 1
                 dist2 := dist 2
                 dist3 := dist 3
                 dist4 := dist 4
                 dist5 := dist 5 }, s)

/-! ### Concrete fixtures used to evaluate the development on closed inputs -/

/-- A stand-in for the bcrypt primitive when a concrete hash function is
needed; operations are parametric in the hash, so nothing depends on
this choice. -/
def hash0 : String → String := fun p => String.append "hashed:" p

/-- An active administrator account. -/
def adminUser : User :=
  { id := 1, email := "admin@x.com", username := "adm", password_hash := "ph1",
    roles := ["user", "admin"], is_active := true, otp_code := none,
    otp_expires_at := none, approved_by := none, approved_at := none }

/-- An active user holding a freshly issued OTP (code "123456", expiry 300). -/
def aliceUser : User :=
  { id := 2, email := "alice@x.com", username := "alice", password_hash := "ph2",
    roles := ["user"], is_active := true, otp_code := some "123456",
    otp_expires_at := some 300, approved_by := some 1, approved_at := some 10 }

/-- An active user with no OTP outstanding. -/
def bobUser : User :=
  { id := 3, email := "bob@x.com", username := "bob", password_hash := "ph3",
    roles := ["user"], is_active := true, otp_code := none,
    otp_expires_at := none, approved_by := some 1, approved_at := some 10 }

/-- A pending listing owned by alice. -/
def agentPending : Agent :=
  { id := 10, name := "PendingAgent", description := "d", app_url := "http://a",
    category := "business", status := AgentStatus.pending, author_id := 2,
    approved_by := none, approved_at := none }

/-- An approved listing owned by alice. -/
def agentApproved : Agent :=
  { id := 11, name := "ApprovedAgent", description := "d", app_url := "http://b",
    category := "business", status := AgentStatus.approved, author_id := 2,
    approved_by := some 1, approved_at := some 20 }

/-- The base store the concrete evaluations start from. -/
def baseState : AppState :=
  { users := [adminUser, aliceUser, bobUser]
    agents := [agentPending, agentApproved]
    views := []
    clicks := []
    sessions := []
    ratings := [{ agent_id := 11, user_id := 3, rating := 2, rated_at := 50 }]
    reviews := [{ id := 1, agent_id := 11, user_id := 3, rating := 2,
                  review_text := "quite disappointing", is_helpful_count := 0,
                  reviewed_at := 50, updated_at := 50 }]
    next_user_id := 4
    next_agent_id := 12
    next_review_id := 2 }

/-! ### Helper lemmas about the storage primitives -/

/-- If the rewriting function preserves the lookup predicate, looking the
row up again after an in-place update finds the updated row. -/
theorem updateFirst_find? {α : Type} (p : α → Bool) (f : α → α)
    (hp : ∀ x, p (f x) = p x) (l : List α) :
    (updateFirst p f l).find? p = (l.find? p).map f := by
  induction l with
  | nil => rfl
  | cons x xs ih =>
    by_cases h : p x
    · simp [updateFirst, h, List.find?_cons_of_pos, hp x]
    · simp [updateFirst, h, List.find?_cons_of_neg, ih]

/-- An in-place update leaves every row outside the predicate untouched:
the complement filter is unchanged. -/
theorem updateFirst_filter_not {α : Type} (p : α → Bool) (f : α → α)
    (hp : ∀ x, p (f x) = p x) (l : List α) :
    (updateFirst p f l).filter (fun x => !(p x)) = l.filter (fun x => !(p x)) := by
  induction l with
  | nil => rfl
  | cons x xs ih =>
    by_cases h : p x
    · simp [updateFirst, h, hp x]
    · simp [updateFirst, h, ih]

/-- When at most one row satisfies the predicate and the lookup finds
one, the rows satisfying the predicate after an in-place update are
exactly the updated row. -/
theorem updateFirst_filter_of_unique {α : Type} (p : α → Bool) (f : α → α)
    (hp : ∀ x, p (f x) = p x) (l : List α) (x : α)
    (hfind : l.find? p = some x)
    (hone : (l.filter p).length ≤ 1) :
    (updateFirst p f l).filter p = [f x] := by
  induction l with
  | nil => simp at hfind
  | cons y ys ih =>
    by_cases h : p y
    · rw [List.find?_cons_of_pos _ h] at hfind
      cases hfind
      have hys : ys.filter p = [] := by
        simp [List.filter_cons, h] at hone
        exact List.filter_eq_nil_iff.mpr (fun a ha => by simp [hone a ha])
      simp [updateFirst, h, hp, List.filter_cons, hys]
    · rw [List.find?_cons_of_neg _ h] at hfind
      simp only [List.filter_cons, h] at hone ⊢
      simp only [Bool.false_eq_true, if_false] at hone ⊢
      simp [updateFirst, h, List.filter_cons, ih hfind hone]

/-- The row rewritten by an in-place update is a member of the result. -/
theorem mem_updateFirst {α : Type} (p : α → Bool) (f : α → α) (l : List α)
    (x : α) (hfind : l.find? p = some x) : f x ∈ updateFirst p f l := by
  induction l with
  | nil => simp at hfind
  | cons y ys ih =>
    by_cases h : p y
    · rw [List.find?_cons_of_pos _ h] at hfind
      cases hfind
      simp [updateFirst, h]
    · rw [List.find?_cons_of_neg _ h] at hfind
      simp [updateFirst, h, ih hfind]

/-- If a lookup fails, no row satisfies the predicate. -/
theorem filter_eq_nil_of_find?_eq_none {α : Type} (p : α → Bool) (l : List α)
    (h : l.find? p = none) : l.filter p = [] := by
  rw [List.filter_eq_nil_iff]
  intro a ha
  exact List.find?_eq_none.mp h a ha

/-! ### C1 -/

/-- C1: a successful `VerifyOtpAndLogin` clears the stored OTP code and
expiry, so before a new `InitiateLogin` every subsequent
`VerifyOtpAndLogin` for the same username — with the same or any other
code, at any time — fails with the `OtpExpired` (code-absent) error and
leaves the state unchanged. -/
theorem verifyOtp_one_shot (s : AppState) (username otp_code : String)
    (now : Nat) (out : LoginOut) (s' : AppState)
    (h : verifyOtp s username otp_code now = (Except.ok out, s')) :
    ∀ code' now', verifyOtp s' username code' now' =
      (Except.error ApiError.otpExpired, s') := by
  intro code' now'
  unfold verifyOtp at h
  split at h
  · simp at h
  next user hfind =>
    split at h
    · simp at h
    next stored hcode =>
      split at h
      · simp at h
      next expiry hexp =>
        split at h
        · simp at h
        · split at h
          · simp at h
          next hlt hne =>
            rw [Prod.mk.injEq] at h
            rw [← h.2]
            have hmap := updateFirst_find? (fun u => u.username == username)
              (fun u => { u with otp_code := none, otp_expires_at := none })
              (fun x => rfl) s.users
            unfold verifyOtp
            simp only [hmap, hfind]
            simp

/-- The state after alice's successful OTP verification in `baseState`. -/
def c1State : AppState := (verifyOtp baseState "alice" "123456" 100).2

/-- Witness for C1: alice verifies code "123456" successfully at time
100; re-presenting the same code immediately afterwards fails with the
code-absent `OtpExpired` error. -/
theorem verifyOtp_one_shot_witness :
    verifyOtp c1State "alice" "123456" 100 =
      (Except.error ApiError.otpExpired, c1State) :=
  verifyOtp_one_shot baseState "alice" "123456" 100
    { user_id := 2, username := "alice", roles := ["user"], is_active := true }
    c1State (by decide) "123456" 100

/-! ### C2 -/

/-- A store holding only the administrator, from which the C2 scenario
is replayed. -/
def soloAdminState : AppState :=
  { users := [adminUser], agents := [], views := [], clicks := [], sessions := [],
    ratings := [], reviews := [], next_user_id := 2, next_agent_id := 1,
    next_review_id := 1 }

/-- Carol registers, is approved, initiates a login (OTP "777777",
expiry 360), and is then deactivated by the admin with the OTP still on
file. -/
def carolDeactivatedState : AppState :=
  (deactivateUser
    ((initiateLogin
      ((approveUser
        ((registerUser hash0 soloAdminState "carol@x.com" "carol" "pw").2)
        2 1 50).2)
      "carol" "777777" 60 5).2)
    2 1).2

/-- Counterexample to C2 as stated: in the reachable state
`carolDeactivatedState` carol's active flag is false, yet
`VerifyOtpAndLogin` with the OTP issued before deactivation succeeds —
`verify_otp_and_login` never consults `is_active`. -/
theorem verifyOtp_inactive_counterexample :
    ((carolDeactivatedState.users.find? (fun u => u.username == "carol")).map
        (fun u => u.is_active) = some false) ∧
    (verifyOtp carolDeactivatedState "carol" "777777" 100).1 =
      Except.ok { user_id := 2, username := "carol", roles := ["user"],
                  is_active := false } := by
  decide

/-- C2 amended: `VerifyOtpAndLogin` performs no active-flag check, so
for an account whose active flag is false it succeeds exactly when a
matching, unexpired OTP is still stored (which can only have been
issued before deactivation, since `InitiateLogin` refuses inactive
accounts); with no stored code, an expired one, or a mismatch, it
fails. -/
theorem verifyOtp_inactive_iff_valid_otp (s : AppState)
    (username code : String) (now : Nat) (u : User)
    (hfind : s.users.find? (fun x => x.username == username) = some u)
    (hinactive : u.is_active = false) :
    (∃ out s', verifyOtp s username code now = (Except.ok out, s')) ↔
      (u.otp_code = some code ∧ ∃ e, u.otp_expires_at = some e ∧ now ≤ e) := by
  cases hcode : u.otp_code with
  | none => simp [verifyOtp, hfind, hcode]
  | some stored =>
    cases hexp : u.otp_expires_at with
    | none => simp [verifyOtp, hfind, hcode, hexp]
    | some e =>
      by_cases hlt : e < now
      · simp only [verifyOtp, hfind, hcode, hexp, if_pos hlt]
        constructor
        · rintro ⟨out, s', h⟩
          simp at h
        · rintro ⟨h1, e', he', hle⟩
          cases he'
          omega
      · by_cases heq : stored = code
        · simp only [verifyOtp, hfind, hcode, hexp, if_neg hlt]
          constructor
          · intro _
            exact ⟨by rw [heq], e, rfl, by omega⟩
          · intro _
            subst heq
            simp only [bne_self_eq_false, Bool.false_eq_true, if_neg, if_false]
            exact ⟨_, _, rfl⟩
        · simp only [verifyOtp, hfind, hcode, hexp, if_neg hlt]
          have hbne : (stored != code) = true := by
            simp [bne, heq]
          constructor
          · rintro ⟨out, s', h⟩
            rw [if_pos hbne] at h
            simp at h
          · rintro ⟨h1, _⟩
            cases h1
            exact absurd rfl heq

/-- Witness for the amended C2 theorem: carol's deactivated account with
the pre-deactivation OTP on file does verify successfully. -/
theorem verifyOtp_inactive_iff_valid_otp_witness :
    ∃ out s', verifyOtp carolDeactivatedState "carol" "777777" 100 =
      (Except.ok out, s') :=
  (verifyOtp_inactive_iff_valid_otp carolDeactivatedState "carol" "777777" 100
    { id := 2, email := "carol@x.com", username := "carol",
      password_hash := "hashed:pw", roles := ["user"], is_active := false,
      otp_code := some "777777", otp_expires_at := some 360,
      approved_by := some 1, approved_at := some 50 }
    (by decide) rfl).mpr (by decide)

/-! ### C3 -/

/-- C3: `Decide` fails with `NotFound` on an absent listing and with the
already-reviewed error on a non-pending one (leaving the state
unchanged); a successful `Decide` sets the terminal status chosen by the
`approve` flag, and every later `Decide` on that listing fails with the
already-reviewed error and leaves the state — hence the status —
unchanged. -/
theorem decideAgent_one_way (s : AppState) (agent_id : Nat) (approve : Bool)
    (admin_id now : Nat) :
    (s.agents.find? (fun a => a.id == agent_id) = none →
      decideAgent s agent_id approve admin_id now =
        (Except.error ApiError.notFound, s)) ∧
    (∀ a, s.agents.find? (fun x => x.id == agent_id) = some a →
      a.status ≠ AgentStatus.pending →
      decideAgent s agent_id approve admin_id now =
        (Except.error ApiError.alreadyReviewed, s)) ∧
    (∀ out s', decideAgent s agent_id approve admin_id now = (Except.ok out, s') →
      out = (if approve then AgentStatus.approved else AgentStatus.rejected) ∧
      (s'.agents.find? (fun x => x.id == agent_id)).map (fun a => a.status) =
        some out ∧
      ∀ approve2 admin2 now2,
        decideAgent s' agent_id approve2 admin2 now2 =
          (Except.error ApiError.alreadyReviewed, s')) := by
  refine ⟨?_, ?_, ?_⟩
  · intro hnone
    unfold decideAgent
    rw [hnone]
  · intro a hfind hstatus
    unfold decideAgent
    rw [hfind]
    have : (a.status != AgentStatus.pending) = true := by
      simpa [bne] using hstatus
    simp [this]
  · intro out s' h
    unfold decideAgent at h
    split at h
    · simp at h
    next a hfind =>
      split at h
      · simp at h
      next hpend =>
        rw [Prod.mk.injEq] at h
        obtain ⟨hout, hstate⟩ := h
        have hout' : out = (if approve then AgentStatus.approved else AgentStatus.rejected) := by
          cases hout
          rfl
        have hmap := updateFirst_find? (fun x => x.id == agent_id)
          (fun a => { a with
            status := if approve then AgentStatus.approved else AgentStatus.rejected,
            approved_by := some admin_id, approved_at := some now })
          (fun x => rfl) s.agents
        refine ⟨hout', ?_, ?_⟩
        · rw [← hstate]
          show (List.find? (fun x => x.id == agent_id) (updateFirst _ _ s.agents)).map _ = _
          rw [hmap, hfind]
          simp [hout']
        · intro approve2 admin2 now2
          rw [← hstate]
          unfold decideAgent
          show (match List.find? (fun x => x.id == agent_id) (updateFirst _ _ s.agents) with
            | none => _ | some agent => _) = _
          rw [hmap, hfind]
          cases approve <;> simp

/-- The state after the pending listing 10 is approved in `baseState`. -/
def c3State : AppState := (decideAgent baseState 10 true 1 100).2

/-- Witness for C3: after admin 1 approves listing 10, a second decision
attempt (a rejection) fails with the already-reviewed error and changes
nothing. -/
theorem decideAgent_one_way_witness :
    decideAgent c3State 10 false 1 200 =
      (Except.error ApiError.alreadyReviewed, c3State) :=
  ((decideAgent_one_way baseState 10 true 1 100).2.2
    AgentStatus.approved c3State (by decide)).2.2 false 1 200

/-! ### C4 -/

/-- C4: `Register` fails with the email-conflict error whenever the
email is taken (regardless of the username), with the username-conflict
error when the email is fresh but the username is taken; when both are
fresh it inserts exactly one account that is inactive, has role list
exactly `["user"]`, and stores `hash password` in the password field,
returning the fresh identifier with the await-approval message.  The
final conjunct expresses "never the password itself": the outcome
depends on the password only through its hash. -/
theorem registerUser_spec (hash : String → String) (s : AppState)
    (email username pw : String) :
    ((s.users.find? (fun u => u.email == email)).isSome = true →
      registerUser hash s email username pw =
        (Except.error ApiError.emailRegistered, s)) ∧
    (s.users.find? (fun u => u.email == email) = none →
      (s.users.find? (fun u => u.username == username)).isSome = true →
      registerUser hash s email username pw =
        (Except.error ApiError.usernameTaken, s)) ∧
    (s.users.find? (fun u => u.email == email) = none →
      s.users.find? (fun u => u.username == username) = none →
      ∃ newUser : User,
        registerUser hash s email username pw =
          (Except.ok ("Registration successful. Waiting for admin approval.",
            s.next_user_id),
           { s with users := s.users ++ [newUser],
                    next_user_id := s.next_user_id + 1 }) ∧
        newUser.id = s.next_user_id ∧ newUser.email = email ∧
        newUser.username = username ∧ newUser.password_hash = hash pw ∧
        newUser.roles = ["user"] ∧ newUser.is_active = false) ∧
    (∀ pw1 pw2, hash pw1 = hash pw2 →
      registerUser hash s email username pw1 =
        registerUser hash s email username pw2) := by
  refine ⟨?_, ?_, ?_, ?_⟩
  · intro h
    unfold registerUser
    rw [if_pos h]
  · intro hemail husername
    unfold registerUser
    rw [hemail]
    simp only [Option.isSome_none, Bool.false_eq_true, if_false]
    rw [if_pos husername]
  · intro hemail husername
    refine ⟨{ id := s.next_user_id, email := email, username := username,
              password_hash := hash pw, roles := ["user"], is_active := false,
              otp_code := none, otp_expires_at := none,
              approved_by := none, approved_at := none },
            ?_, rfl, rfl, rfl, rfl, rfl, rfl⟩
    unfold registerUser
    rw [hemail, husername]
    simp
  · intro pw1 pw2 h
    unfold registerUser
    rw [h]

/-- Witness for C4: re-registering alice's email (with a fresh username)
fails with the email-conflict error and leaves the store unchanged. -/
theorem registerUser_spec_witness :
    registerUser hash0 baseState "alice@x.com" "dan" "pw" =
      (Except.error ApiError.emailRegistered, baseState) :=
  (registerUser_spec hash0 baseState "alice@x.com" "dan" "pw").1 (by decide)

/-! ### C5 -/

/-- C5: `View` fails with `NotFound` on an absent listing; on a present
listing it fails with `Forbidden` exactly when the status is not
approved and the viewer is neither an admin nor the author (leaving the
state unchanged); on an approved listing it appends a view row if and
only if the viewer has no view of this listing in the trailing 1-hour
window; on a non-approved listing it never writes. -/
theorem getAgent_view_spec (s : AppState) (agent_id : Nat) (viewer : User)
    (now : Nat) :
    (s.agents.find? (fun a => a.id == agent_id) = none →
      getAgent s agent_id viewer now = (Except.error ApiError.notFound, s)) ∧
    (∀ a, s.agents.find? (fun x => x.id == agent_id) = some a →
      (((getAgent s agent_id viewer now).1 = Except.error ApiError.forbidden) ↔
        (a.status ≠ AgentStatus.approved ∧ viewer.is_admin = false ∧
         a.author_id ≠ viewer.id)) ∧
      ((getAgent s agent_id viewer now).1 = Except.error ApiError.forbidden →
        (getAgent s agent_id viewer now).2 = s) ∧
      (a.status = AgentStatus.approved →
        (getAgent s agent_id viewer now).2 =
          (if (s.views.find? (fun v => v.agent_id == agent_id
                && v.user_id == viewer.id
                && decide (now - 3600 ≤ v.viewed_at))).isNone
           then { s with views := s.views ++
              [{ agent_id := agent_id, user_id := viewer.id, viewed_at := now }] }
           else s)) ∧
      (a.status ≠ AgentStatus.approved →
        (getAgent s agent_id viewer now).2 = s)) := by
  constructor
  · intro hnone
    unfold getAgent
    rw [hnone]
  · intro a hfind
    by_cases hadm : viewer.is_admin = true <;>
      by_cases hst : a.status = AgentStatus.approved <;>
        by_cases hauth : a.author_id = viewer.id <;>
          simp [getAgent, hfind, hadm, hst, hauth, Bool.not_eq_true]

/-- Witness for C5: bob (no admin role, not the author) is refused a
view of the still-pending listing 10. -/
theorem getAgent_view_spec_witness :
    (getAgent baseState 10 bobUser 100).1 = Except.error ApiError.forbidden :=
  (((getAgent_view_spec baseState 10 bobUser 100).2 agentPending
    (by decide)).1).mpr (by decide)

/-! ### C6 -/

/-- Characterization of the rating upsert: assuming the database
invariant that the caller has at most one rating row on the listing,
after the upsert the caller's rows are exactly the one fresh row, every
other row is untouched, and no other table changes. -/
theorem upsertRating_filter (s : AppState) (aid uid : Nat) (stars : Int)
    (now : Nat)
    (hone : (s.ratings.filter
      (fun r => r.agent_id == aid && r.user_id == uid)).length ≤ 1) :
    (upsertRating s aid uid stars now).ratings.filter
        (fun r => r.agent_id == aid && r.user_id == uid) =
      [{ agent_id := aid, user_id := uid, rating := stars, rated_at := now }] ∧
    (upsertRating s aid uid stars now).ratings.filter
        (fun r => !(r.agent_id == aid && r.user_id == uid)) =
      s.ratings.filter (fun r => !(r.agent_id == aid && r.user_id == uid)) ∧
    (upsertRating s aid uid stars now).reviews = s.reviews ∧
    (upsertRating s aid uid stars now).agents = s.agents ∧
    (upsertRating s aid uid stars now).users = s.users := by
  unfold upsertRating
  split
  next x hf =>
    have hpx := List.find?_some hf
    simp only [Bool.and_eq_true, beq_iff_eq] at hpx
    refine ⟨?_, ?_, rfl, rfl, rfl⟩
    · show (updateFirst (fun r => r.agent_id == aid && r.user_id == uid)
        (fun r => { r with rating := stars, rated_at := now })
        s.ratings).filter (fun r => r.agent_id == aid && r.user_id == uid) = _
      rw [updateFirst_filter_of_unique
        (fun r => r.agent_id == aid && r.user_id == uid)
        (fun r => { r with rating := stars, rated_at := now })
        (fun y => rfl) s.ratings x hf hone]
      obtain ⟨A, B, R, T⟩ := x
      simp only at hpx
      rw [hpx.1, hpx.2]
    · show (updateFirst (fun r => r.agent_id == aid && r.user_id == uid)
        (fun r => { r with rating := stars, rated_at := now })
        s.ratings).filter (fun r => !(r.agent_id == aid && r.user_id == uid)) = _
      exact updateFirst_filter_not
        (fun r => r.agent_id == aid && r.user_id == uid)
        (fun r => { r with rating := stars, rated_at := now })
        (fun y => rfl) s.ratings
  next hf =>
    refine ⟨?_, ?_, rfl, rfl, rfl⟩
    · show (s.ratings ++
        [(⟨aid, uid, stars, now⟩ : AgentRating)]).filter
          (fun r => r.agent_id == aid && r.user_id == uid) = _
      rw [List.filter_append, filter_eq_nil_of_find?_eq_none _ _ hf]
      simp
    · show (s.ratings ++
        [(⟨aid, uid, stars, now⟩ : AgentRating)]).filter
          (fun r => !(r.agent_id == aid && r.user_id == uid)) = _
      rw [List.filter_append]
      simp

/-- C6: `Rate` fails with `NotFound` on an absent listing and with the
invalid-rating error for stars outside 1–5 (state unchanged in both
cases); otherwise it upserts the caller's single rating row
(last-write-wins, other raters untouched) and returns the rating count
of the listing together with the arithmetic mean of the stored
per-rater values rounded to two decimals. -/
theorem rateAgent_spec (s : AppState) (agent_id user_id : Nat)
    (stars : Int) (now : Nat) :
    (s.agents.find? (fun a => a.id == agent_id) = none →
      rateAgent s agent_id user_id stars now =
        (Except.error ApiError.notFound, s)) ∧
    (∀ a, s.agents.find? (fun x => x.id == agent_id) = some a →
      (stars < 1 ∨ 5 < stars) →
      rateAgent s agent_id user_id stars now =
        (Except.error ApiError.invalidRating, s)) ∧
    (∀ a, s.agents.find? (fun x => x.id == agent_id) = some a →
      1 ≤ stars → stars ≤ 5 →
      (s.ratings.filter
        (fun r => r.agent_id == agent_id && r.user_id == user_id)).length ≤ 1 →
      ∃ out s', rateAgent s agent_id user_id stars now = (Except.ok out, s') ∧
        s'.ratings.filter
            (fun r => r.agent_id == agent_id && r.user_id == user_id) =
          [{ agent_id := agent_id, user_id := user_id,
             rating := stars, rated_at := now }] ∧
        s'.ratings.filter
            (fun r => !(r.agent_id == agent_id && r.user_id == user_id)) =
          s.ratings.filter
            (fun r => !(r.agent_id == agent_id && r.user_id == user_id)) ∧
        out.rating = stars ∧
        out.total_ratings = (agentRatings s' agent_id).length ∧
        out.average_rating = round2 (ratingMean s' agent_id)) := by
  refine ⟨?_, ?_, ?_⟩
  · intro hnone
    unfold rateAgent
    rw [hnone]
  · intro a hfind hout
    unfold rateAgent
    rw [hfind]
    rcases hout with h | h <;> simp [h]
  · intro a hfind h1 h5 hone
    have hcond : (decide (stars < 1) || decide (5 < stars)) = false := by
      simp only [Bool.or_eq_false_iff, decide_eq_false_iff_not]
      omega
    obtain ⟨hkey, hcomp, -, -, -⟩ := upsertRating_filter s agent_id user_id stars now hone
    have hmem0 : (⟨agent_id, user_id, stars, now⟩ : AgentRating) ∈
        List.filter (fun r => r.agent_id == agent_id && r.user_id == user_id)
          (upsertRating s agent_id user_id stars now).ratings := by
      rw [hkey]
      exact List.mem_singleton.mpr rfl
    have hmem : (⟨agent_id, user_id, stars, now⟩ : AgentRating) ∈
        agentRatings (upsertRating s agent_id user_id stars now) agent_id := by
      unfold agentRatings
      rw [List.mem_filter]
      exact ⟨List.mem_of_mem_filter hmem0, by simp⟩
    have hlen : (agentRatings (upsertRating s agent_id user_id stars now)
        agent_id).length ≠ 0 :=
      Nat.pos_iff_ne_zero.mp (List.length_pos_of_mem hmem)
    have hmean : ratingMean (upsertRating s agent_id user_id stars now) agent_id =
        (((agentRatings (upsertRating s agent_id user_id stars now)
            agent_id).map (fun r => (r.rating : ℚ))).sum) /
          ((agentRatings (upsertRating s agent_id user_id stars now)
            agent_id).length : ℚ) := by
      unfold ratingMean
      rw [if_neg hlen]
    have hEq : rateAgent s agent_id user_id stars now =
        (Except.ok (⟨stars,
          round2 ((((agentRatings (upsertRating s agent_id user_id stars now)
            agent_id).map (fun r => (r.rating : ℚ))).sum) /
            ((agentRatings (upsertRating s agent_id user_id stars now)
              agent_id).length : ℚ)),
          (agentRatings (upsertRating s agent_id user_id stars now)
            agent_id).length⟩ : RateOut),
         upsertRating s agent_id user_id stars now) := by
      unfold rateAgent
      rw [hfind]
      simp [hcond]
    refine ⟨_, _, hEq, hkey, hcomp, rfl, rfl, ?_⟩
    show round2 _ = round2 (ratingMean _ _)
    rw [hmean]

/-- Witness for C6: alice (id 2) rates the approved listing 11 with 5
stars in `baseState`; the call succeeds. -/
theorem rateAgent_spec_witness :
    ∃ out s', rateAgent baseState 11 2 5 100 = (Except.ok out, s') := by
  obtain ⟨out, s', h, -, -, -, -, -⟩ :=
    (rateAgent_spec baseState 11 2 5 100).2.2 agentApproved
      (by decide) (by decide) (by decide) (by decide)
  exact ⟨out, s', h⟩

/-! ### C7 -/

/-- C7: `Review` fails in order with `NotFound` (listing absent),
`NotApproved` (status not approved), `InvalidRating` (stars outside
1–5) and `TextTooShort` (trimmed text under 10 characters), each
leaving the state unchanged; on success it upserts the caller's review
row and, in the same operation, the caller's rating row with the
numerically identical stars value, touching no other review or rating
row. -/
theorem createReview_spec (s : AppState) (agent_id user_id : Nat)
    (stars : Int) (text : String) (now : Nat) :
    (s.agents.find? (fun a => a.id == agent_id) = none →
      createReview s agent_id user_id stars text now =
        (Except.error ApiError.notFound, s)) ∧
    (∀ a, s.agents.find? (fun x => x.id == agent_id) = some a →
      a.status ≠ AgentStatus.approved →
      createReview s agent_id user_id stars text now =
        (Except.error ApiError.notApproved, s)) ∧
    (∀ a, s.agents.find? (fun x => x.id == agent_id) = some a →
      a.status = AgentStatus.approved → (stars < 1 ∨ 5 < stars) →
      createReview s agent_id user_id stars text now =
        (Except.error ApiError.invalidRating, s)) ∧
    (∀ a, s.agents.find? (fun x => x.id == agent_id) = some a →
      a.status = AgentStatus.approved → 1 ≤ stars → stars ≤ 5 →
      (pyStrip text).length < 10 →
      createReview s agent_id user_id stars text now =
        (Except.error ApiError.textTooShort, s)) ∧
    (∀ a, s.agents.find? (fun x => x.id == agent_id) = some a →
      a.status = AgentStatus.approved → 1 ≤ stars → stars ≤ 5 →
      10 ≤ (pyStrip text).length →
      (s.reviews.filter
        (fun r => r.agent_id == agent_id && r.user_id == user_id)).length ≤ 1 →
      (s.ratings.filter
        (fun r => r.agent_id == agent_id && r.user_id == user_id)).length ≤ 1 →
      ∃ s2, createReview s agent_id user_id stars text now =
          (Except.ok stars, s2) ∧
        (∃ rrow, s2.reviews.filter
            (fun r => r.agent_id == agent_id && r.user_id == user_id) = [rrow] ∧
          rrow.rating = stars ∧ rrow.review_text = text) ∧
        s2.ratings.filter
            (fun r => r.agent_id == agent_id && r.user_id == user_id) =
          [(⟨agent_id, user_id, stars, now⟩ : AgentRating)] ∧
        s2.reviews.filter
            (fun r => !(r.agent_id == agent_id && r.user_id == user_id)) =
          s.reviews.filter
            (fun r => !(r.agent_id == agent_id && r.user_id == user_id)) ∧
        s2.ratings.filter
            (fun r => !(r.agent_id == agent_id && r.user_id == user_id)) =
          s.ratings.filter
            (fun r => !(r.agent_id == agent_id && r.user_id == user_id))) := by
  refine ⟨?_, ?_, ?_, ?_, ?_⟩
  · intro hnone
    unfold createReview
    rw [hnone]
  · intro a hfind hstatus
    have hb : (a.status != AgentStatus.approved) = true := bne_iff_ne.mpr hstatus
    unfold createReview
    rw [hfind]
    simp [hb]
  · intro a hfind hstatus hout
    have hb : (a.status != AgentStatus.approved) = false := by
      simp [hstatus]
    unfold createReview
    rw [hfind]
    rcases hout with h | h <;> simp [hb, h]
  · intro a hfind hstatus h1 h5 htext
    have hb : (a.status != AgentStatus.approved) = false := by
      simp [hstatus]
    have hcond : (decide (stars < 1) || decide (5 < stars)) = false := by
      simp only [Bool.or_eq_false_iff, decide_eq_false_iff_not]
      omega
    unfold createReview
    rw [hfind]
    simp [hb, hcond, htext]
  · intro a hfind hstatus h1 h5 htext honeR honeP
    have hb : (a.status != AgentStatus.approved) = false := by
      simp [hstatus]
    have hcond : (decide (stars < 1) || decide (5 < stars)) = false := by
      simp only [Bool.or_eq_false_iff, decide_eq_false_iff_not]
      omega
    have htext' : ¬ ((pyStrip text).length < 10) := by omega
    cases hfR : s.reviews.find?
        (fun r => r.agent_id == agent_id && r.user_id == user_id) with
    | some x =>
      refine ⟨upsertRating ({ s with reviews := updateFirst (fun r => r.agent_id == agent_id && r.user_id == user_id) (fun r => { r with rating := stars, review_text := text, updated_at := now }) s.reviews }) agent_id user_id stars now, ?_, ?_, ?_, ?_, ?_⟩
      · unfold createReview
        rw [hfind]
        simp [hb, hcond, htext', hfR]
      · obtain ⟨hkeep, -, hrev, -, -⟩ := upsertRating_filter
          ({ s with reviews := updateFirst (fun r => r.agent_id == agent_id && r.user_id == user_id) (fun r => { r with rating := stars, review_text := text, updated_at := now }) s.reviews }) agent_id user_id stars now honeP
        rw [hrev]
        refine ⟨{ x with rating := stars, review_text := text, updated_at := now }, ?_, rfl, rfl⟩
        exact updateFirst_filter_of_unique
          (fun r => r.agent_id == agent_id && r.user_id == user_id)
          (fun r => { r with rating := stars, review_text := text, updated_at := now })
          (fun y => rfl) s.reviews x hfR honeR
      · exact (upsertRating_filter ({ s with reviews := updateFirst (fun r => r.agent_id == agent_id && r.user_id == user_id) (fun r => { r with rating := stars, review_text := text, updated_at := now }) s.reviews }) agent_id user_id stars now honeP).1
      · obtain ⟨-, -, hrev, -, -⟩ := upsertRating_filter
          ({ s with reviews := updateFirst (fun r => r.agent_id == agent_id && r.user_id == user_id) (fun r => { r with rating := stars, review_text := text, updated_at := now }) s.reviews }) agent_id user_id stars now honeP
        rw [hrev]
        exact updateFirst_filter_not
          (fun r => r.agent_id == agent_id && r.user_id == user_id)
          (fun r => { r with rating := stars, review_text := text, updated_at := now })
          (fun y => rfl) s.reviews
      · exact (upsertRating_filter ({ s with reviews := updateFirst (fun r => r.agent_id == agent_id && r.user_id == user_id) (fun r => { r with rating := stars, review_text := text, updated_at := now }) s.reviews }) agent_id user_id stars now honeP).2.1
    | none =>
      refine ⟨upsertRating ({ s with reviews := s.reviews ++ [(⟨s.next_review_id, agent_id, user_id, stars, text, 0, now, now⟩ : AgentReview)], next_review_id := s.next_review_id + 1 }) agent_id user_id stars now, ?_, ?_, ?_, ?_, ?_⟩
      · unfold createReview
        rw [hfind]
        simp [hb, hcond, htext', hfR]
      · obtain ⟨-, -, hrev, -, -⟩ := upsertRating_filter
          ({ s with reviews := s.reviews ++ [(⟨s.next_review_id, agent_id, user_id, stars, text, 0, now, now⟩ : AgentReview)], next_review_id := s.next_review_id + 1 }) agent_id user_id stars now honeP
        rw [hrev]
        refine ⟨⟨s.next_review_id, agent_id, user_id, stars, text, 0, now, now⟩, ?_, rfl, rfl⟩
        show (s.reviews ++ [(⟨s.next_review_id, agent_id, user_id, stars, text, 0, now, now⟩ : AgentReview)]).filter
          (fun r => r.agent_id == agent_id && r.user_id == user_id) = _
        rw [List.filter_append, filter_eq_nil_of_find?_eq_none _ _ hfR]
        simp
      · exact (upsertRating_filter ({ s with reviews := s.reviews ++ [(⟨s.next_review_id, agent_id, user_id, stars, text, 0, now, now⟩ : AgentReview)], next_review_id := s.next_review_id + 1 }) agent_id user_id stars now honeP).1
      · obtain ⟨-, -, hrev, -, -⟩ := upsertRating_filter
          ({ s with reviews := s.reviews ++ [(⟨s.next_review_id, agent_id, user_id, stars, text, 0, now, now⟩ : AgentReview)], next_review_id := s.next_review_id + 1 }) agent_id user_id stars now honeP
        rw [hrev]
        show (s.reviews ++ [(⟨s.next_review_id, agent_id, user_id, stars, text, 0, now, now⟩ : AgentReview)]).filter
          (fun r => !(r.agent_id == agent_id && r.user_id == user_id)) = _
        rw [List.filter_append]
        simp
      · exact (upsertRating_filter ({ s with reviews := s.reviews ++ [(⟨s.next_review_id, agent_id, user_id, stars, text, 0, now, now⟩ : AgentReview)], next_review_id := s.next_review_id + 1 }) agent_id user_id stars now honeP).2.1

/-- Witness for C7: bob (id 3) updates his review on the approved
listing 11 with 4 stars and a long-enough text; the call succeeds. -/
theorem createReview_spec_witness :
    ∃ s2, createReview baseState 11 3 4 "Works great for my team" 100 =
      (Except.ok 4, s2) := by
  obtain ⟨s2, h, -, -, -, -⟩ :=
    (createReview_spec baseState 11 3 4 "Works great for my team" 100).2.2.2.2
      agentApproved (by decide) rfl (by decide) (by decide) (by decide)
      (by decide) (by decide)
  exact ⟨s2, h⟩

/-- Embedding of `AuthService.change_password`: user lookup by id (404
when absent), current-password check against the stored hash (400 when
it fails), then the stored hash is replaced with the hash of the new
password.  The `verify_password` and `get_password_hash` primitives
live in `app/core/security.py` and are passed in as function
parameters, like the hash in `registerUser`. -/
def changePassword (verify : String → String → Bool)
    (hash : String → String) (s : AppState) (user_id : Nat)
    (current_password new_password : String) :
    Except ApiError String × AppState :=
  match s.users.find? (fun u => u.id == user_id) with
  | none => (Except.error ApiError.notFound, s)
  | some user =>
    if !(verify current_password user.password_hash) then
      (Except.error ApiError.wrongPassword, s)
    else
      let users' := updateFirst (fun u => u.id == user_id)
        (fun u => { u with password_hash := hash new_password }) s.users
      (Except.ok "Password changed successfully", { s with users := users' })

/-! ### C8: every failing operation leaves the store untouched -/

theorem registerUser_err_frame (hash : String → String) (s : AppState)
    (email username pw : String) (e : ApiError)
    (h : (registerUser hash s email username pw).1 = Except.error e) :
    (registerUser hash s email username pw).2 = s := by
  revert h
  unfold registerUser
  repeat' split
  all_goals intro h
  all_goals first | rfl | simp at h

theorem initiateLogin_err_frame (s : AppState) (username otp : String)
    (now ttl : Nat) (e : ApiError)
    (h : (initiateLogin s username otp now ttl).1 = Except.error e) :
    (initiateLogin s username otp now ttl).2 = s := by
  revert h
  unfold initiateLogin
  repeat' split
  all_goals intro h
  all_goals first | rfl | simp at h

theorem verifyOtp_err_frame (s : AppState) (username code : String)
    (now : Nat) (e : ApiError)
    (h : (verifyOtp s username code now).1 = Except.error e) :
    (verifyOtp s username code now).2 = s := by
  revert h
  unfold verifyOtp
  repeat' split
  all_goals intro h
  all_goals first | rfl | simp at h

theorem approveUser_err_frame (s : AppState) (user_id approver_id now : Nat)
    (e : ApiError)
    (h : (approveUser s user_id approver_id now).1 = Except.error e) :
    (approveUser s user_id approver_id now).2 = s := by
  revert h
  unfold approveUser
  repeat' split
  all_goals intro h
  all_goals first | rfl | simp at h

theorem deactivateUser_err_frame (s : AppState) (user_id admin_id : Nat)
    (e : ApiError)
    (h : (deactivateUser s user_id admin_id).1 = Except.error e) :
    (deactivateUser s user_id admin_id).2 = s := by
  revert h
  unfold deactivateUser
  repeat' split
  all_goals intro h
  all_goals first | rfl | simp at h

theorem rejectUser_err_frame (s : AppState) (user_id admin_id : Nat)
    (e : ApiError)
    (h : (rejectUser s user_id admin_id).1 = Except.error e) :
    (rejectUser s user_id admin_id).2 = s := by
  revert h
  unfold rejectUser
  repeat' split
  all_goals intro h
  all_goals first | rfl | simp at h

theorem makeAdmin_err_frame (s : AppState) (user_id : Nat) (e : ApiError)
    (h : (makeAdmin s user_id).1 = Except.error e) :
    (makeAdmin s user_id).2 = s := by
  revert h
  unfold makeAdmin
  repeat' split
  all_goals intro h
  all_goals first | rfl | simp at h

theorem createAgent_err_frame (s : AppState) (author_id : Nat)
    (name description app_url category : String) (e : ApiError)
    (h : (createAgent s author_id name description app_url category).1 =
      Except.error e) :
    (createAgent s author_id name description app_url category).2 = s := by
  revert h
  unfold createAgent
  repeat' split
  all_goals intro h
  all_goals first | rfl | simp at h

theorem decideAgent_err_frame (s : AppState) (agent_id : Nat) (approve : Bool)
    (admin_id now : Nat) (e : ApiError)
    (h : (decideAgent s agent_id approve admin_id now).1 = Except.error e) :
    (decideAgent s agent_id approve admin_id now).2 = s := by
  revert h
  unfold decideAgent
  repeat' split
  all_goals intro h
  all_goals first | rfl | simp at h

theorem getAgent_err_frame (s : AppState) (agent_id : Nat) (viewer : User)
    (now : Nat) (e : ApiError)
    (h : (getAgent s agent_id viewer now).1 = Except.error e) :
    (getAgent s agent_id viewer now).2 = s := by
  revert h
  unfold getAgent
  repeat' split
  all_goals intro h
  all_goals first | rfl | simp at h

theorem trackClick_err_frame (s : AppState) (agent_id user_id : Nat)
    (click_type : String) (referrer : Option String) (now : Nat) (e : ApiError)
    (h : (trackClick s agent_id user_id click_type referrer now).1 =
      Except.error e) :
    (trackClick s agent_id user_id click_type referrer now).2 = s := by
  revert h
  unfold trackClick
  repeat' split
  all_goals intro h
  all_goals first | rfl | simp at h

theorem trackSession_err_frame (s : AppState) (agent_id user_id : Nat)
    (duration : ℚ) (now : Nat) (e : ApiError)
    (h : (trackSession s agent_id user_id duration now).1 = Except.error e) :
    (trackSession s agent_id user_id duration now).2 = s := by
  revert h
  unfold trackSession
  repeat' split
  all_goals intro h
  all_goals first | rfl | simp at h

theorem rateAgent_err_frame (s : AppState) (agent_id user_id : Nat)
    (stars : Int) (now : Nat) (e : ApiError)
    (h : (rateAgent s agent_id user_id stars now).1 = Except.error e) :
    (rateAgent s agent_id user_id stars now).2 = s := by
  revert h
  unfold rateAgent
  repeat' split
  all_goals intro h
  all_goals first | rfl | simp at h

theorem createReview_err_frame (s : AppState) (agent_id user_id : Nat)
    (stars : Int) (text : String) (now : Nat) (e : ApiError)
    (h : (createReview s agent_id user_id stars text now).1 = Except.error e) :
    (createReview s agent_id user_id stars text now).2 = s := by
  revert h
  unfold createReview
  repeat' split
  all_goals intro h
  all_goals first | rfl | simp at h

theorem deleteReview_err_frame (s : AppState) (agent_id user_id : Nat)
    (e : ApiError)
    (h : (deleteReview s agent_id user_id).1 = Except.error e) :
    (deleteReview s agent_id user_id).2 = s := by
  revert h
  unfold deleteReview
  repeat' split
  all_goals intro h
  all_goals first | rfl | simp at h

theorem markHelpful_err_frame (s : AppState) (agent_id review_id : Nat)
    (e : ApiError)
    (h : (markHelpful s agent_id review_id).1 = Except.error e) :
    (markHelpful s agent_id review_id).2 = s := by
  revert h
  unfold markHelpful
  repeat' split
  all_goals intro h
  all_goals first | rfl | simp at h

theorem ratingStats_err_frame (s : AppState) (agent_id : Nat) (e : ApiError)
    (h : (ratingStats s agent_id).1 = Except.error e) :
    (ratingStats s agent_id).2 = s := by
  revert h
  unfold ratingStats
  repeat' split
  all_goals intro h
  all_goals first | rfl | simp at h

theorem changePassword_err_frame (verify : String → String → Bool)
    (hash : String → String) (s : AppState) (user_id : Nat)
    (current_password new_password : String) (e : ApiError)
    (h : (changePassword verify hash s user_id
      current_password new_password).1 = Except.error e) :
    (changePassword verify hash s user_id
      current_password new_password).2 = s := by
  revert h
  unfold changePassword
  repeat' split
  all_goals intro h
  all_goals first | rfl | simp at h

/-- C8: for every operation of the system — registration, login
initiation, OTP verification, account approval / deactivation /
rejection / admin grant, password change, listing submission and
decision, viewing, click and session tracking, rating, review creation
and deletion, helpful marking, and the stats read — any failure is
raised before any mutating storage call: whenever an operation returns
an error, the resulting store is exactly the input store (no partial
writes). -/
theorem errors_leave_state_unchanged (s : AppState) :
    (∀ hash email username pw e,
      (registerUser hash s email username pw).1 = Except.error e →
      (registerUser hash s email username pw).2 = s) ∧
    (∀ username otp now ttl e,
      (initiateLogin s username otp now ttl).1 = Except.error e →
      (initiateLogin s username otp now ttl).2 = s) ∧
    (∀ username code now e,
      (verifyOtp s username code now).1 = Except.error e →
      (verifyOtp s username code now).2 = s) ∧
    (∀ user_id approver_id now e,
      (approveUser s user_id approver_id now).1 = Except.error e →
      (approveUser s user_id approver_id now).2 = s) ∧
    (∀ user_id admin_id e,
      (deactivateUser s user_id admin_id).1 = Except.error e →
      (deactivateUser s user_id admin_id).2 = s) ∧
    (∀ user_id admin_id e,
      (rejectUser s user_id admin_id).1 = Except.error e →
      (rejectUser s user_id admin_id).2 = s) ∧
    (∀ user_id e,
      (makeAdmin s user_id).1 = Except.error e →
      (makeAdmin s user_id).2 = s) ∧
    (∀ author_id name description app_url category e,
      (createAgent s author_id name description app_url category).1 =
        Except.error e →
      (createAgent s author_id name description app_url category).2 = s) ∧
    (∀ agent_id approve admin_id now e,
      (decideAgent s agent_id approve admin_id now).1 = Except.error e →
      (decideAgent s agent_id approve admin_id now).2 = s) ∧
    (∀ agent_id viewer now e,
      (getAgent s agent_id viewer now).1 = Except.error e →
      (getAgent s agent_id viewer now).2 = s) ∧
    (∀ agent_id user_id click_type referrer now e,
      (trackClick s agent_id user_id click_type referrer now).1 =
        Except.error e →
      (trackClick s agent_id user_id click_type referrer now).2 = s) ∧
    (∀ agent_id user_id duration now e,
      (trackSession s agent_id user_id duration now).1 = Except.error e →
      (trackSession s agent_id user_id duration now).2 = s) ∧
    (∀ agent_id user_id stars now e,
      (rateAgent s agent_id user_id stars now).1 = Except.error e →
      (rateAgent s agent_id user_id stars now).2 = s) ∧
    (∀ agent_id user_id stars text now e,
      (createReview s agent_id user_id stars text now).1 = Except.error e →
      (createReview s agent_id user_id stars text now).2 = s) ∧
    (∀ agent_id user_id e,
      (deleteReview s agent_id user_id).1 = Except.error e →
      (deleteReview s agent_id user_id).2 = s) ∧
    (∀ agent_id review_id e,
      (markHelpful s agent_id review_id).1 = Except.error e →
      (markHelpful s agent_id review_id).2 = s) ∧
    (∀ agent_id e,
      (ratingStats s agent_id).1 = Except.error e →
      (ratingStats s agent_id).2 = s) ∧
    (∀ verify hash user_id current_password new_password e,
      (changePassword verify hash s user_id
        current_password new_password).1 = Except.error e →
      (changePassword verify hash s user_id
        current_password new_password).2 = s) :=
  ⟨fun hash email username pw e => registerUser_err_frame hash s email username pw e,
   fun username otp now ttl e => initiateLogin_err_frame s username otp now ttl e,
   fun username code now e => verifyOtp_err_frame s username code now e,
   fun user_id approver_id now e => approveUser_err_frame s user_id approver_id now e,
   fun user_id admin_id e => deactivateUser_err_frame s user_id admin_id e,
   fun user_id admin_id e => rejectUser_err_frame s user_id admin_id e,
   fun user_id e => makeAdmin_err_frame s user_id e,
   fun author_id name description app_url category e =>
     createAgent_err_frame s author_id name description app_url category e,
   fun agent_id approve admin_id now e =>
     decideAgent_err_frame s agent_id approve admin_id now e,
   fun agent_id viewer now e => getAgent_err_frame s agent_id viewer now e,
   fun agent_id user_id click_type referrer now e =>
     trackClick_err_frame s agent_id user_id click_type referrer now e,
   fun agent_id user_id duration now e =>
     trackSession_err_frame s agent_id user_id duration now e,
   fun agent_id user_id stars now e =>
     rateAgent_err_frame s agent_id user_id stars now e,
   fun agent_id user_id stars text now e =>
     createReview_err_frame s agent_id user_id stars text now e,
   fun agent_id user_id e => deleteReview_err_frame s agent_id user_id e,
   fun agent_id review_id e => markHelpful_err_frame s agent_id review_id e,
   fun agent_id e => ratingStats_err_frame s agent_id e,
   fun verify hash user_id current_password new_password e =>
     changePassword_err_frame verify hash s user_id
       current_password new_password e⟩

/-- Witness for C8: a conflicting registration in `baseState` fails and
returns the store unchanged. -/
theorem errors_leave_state_unchanged_witness :
    (registerUser hash0 baseState "alice@x.com" "eve" "pw").2 = baseState :=
  (errors_leave_state_unchanged baseState).1 hash0 "alice@x.com" "eve" "pw"
    ApiError.emailRegistered (by decide)

/-! ### C9 -/

/-- The rating upsert always leaves a row for the caller carrying the
new stars value. -/
theorem upsertRating_mem (s : AppState) (aid uid : Nat) (stars : Int)
    (now : Nat) :
    ∃ r ∈ (upsertRating s aid uid stars now).ratings,
      r.agent_id = aid ∧ r.user_id = uid ∧ r.rating = stars := by
  unfold upsertRating
  split
  next x hf =>
    have hpx := List.find?_some hf
    simp only [Bool.and_eq_true, beq_iff_eq] at hpx
    exact ⟨{ x with rating := stars, rated_at := now },
      mem_updateFirst _ _ s.ratings x hf, hpx.1, hpx.2, rfl⟩
  next hf =>
    exact ⟨⟨aid, uid, stars, now⟩, by simp, rfl, rfl, rfl⟩

/-- C9: `Rate` checks only that the listing exists — for a listing in
`pending` or `rejected` status a 1–5 rating succeeds and is stored —
whereas `Review` on the same listing fails with the not-approved
error. -/
theorem rateAgent_ignores_status (s : AppState) (agent_id user_id : Nat)
    (stars : Int) (now : Nat) (text : String) (a : Agent)
    (hfind : s.agents.find? (fun x => x.id == agent_id) = some a)
    (hstatus : a.status = AgentStatus.pending ∨ a.status = AgentStatus.rejected)
    (h1 : 1 ≤ stars) (h5 : stars ≤ 5) :
    (∃ out s', rateAgent s agent_id user_id stars now = (Except.ok out, s') ∧
      ∃ r ∈ s'.ratings, r.agent_id = agent_id ∧ r.user_id = user_id ∧
        r.rating = stars) ∧
    createReview s agent_id user_id stars text now =
      (Except.error ApiError.notApproved, s) := by
  have hcond : (decide (stars < 1) || decide (5 < stars)) = false := by
    simp only [Bool.or_eq_false_iff, decide_eq_false_iff_not]
    omega
  constructor
  · have hEq : rateAgent s agent_id user_id stars now =
        (Except.ok (⟨stars,
          round2 ((((agentRatings (upsertRating s agent_id user_id stars now)
            agent_id).map (fun r => (r.rating : ℚ))).sum) /
            ((agentRatings (upsertRating s agent_id user_id stars now)
              agent_id).length : ℚ)),
          (agentRatings (upsertRating s agent_id user_id stars now)
            agent_id).length⟩ : RateOut),
         upsertRating s agent_id user_id stars now) := by
      unfold rateAgent
      rw [hfind]
      simp [hcond]
    exact ⟨_, _, hEq, upsertRating_mem s agent_id user_id stars now⟩
  · have hb : (a.status != AgentStatus.approved) = true := by
      rcases hstatus with h | h <;> simp [h]
    unfold createReview
    rw [hfind]
    simp [hb]

/-- Witness for C9: bob rates the pending listing 10 with 3 stars —
accepted; bob's review of the same pending listing is refused. -/
theorem rateAgent_ignores_status_witness :
    (∃ out s', rateAgent baseState 10 3 3 100 = (Except.ok out, s')) ∧
    createReview baseState 10 3 3 "a sufficiently long text" 100 =
      (Except.error ApiError.notApproved, baseState) := by
  obtain ⟨⟨out, s', h, -⟩, h2⟩ :=
    rateAgent_ignores_status baseState 10 3 3 100
      "a sufficiently long text" agentPending (by decide) (Or.inl rfl)
      (by decide) (by decide)
  exact ⟨⟨out, s', h⟩, h2⟩

/-! ### C10 -/

/-- Deleting the first row satisfying `p` removes exactly one row from
any filter implied by `p`. -/
theorem length_filter_eraseP (p q : α → Bool) (l : List α) (x : α)
    (hfind : l.find? p = some x) (himp : ∀ y, p y = true → q y = true) :
    ((l.eraseP p).filter q).length + 1 = (l.filter q).length := by
  induction l with
  | nil => simp at hfind
  | cons y ys ih =>
    by_cases h : p y
    · rw [List.find?_cons_of_pos _ h] at hfind
      cases hfind
      rw [List.eraseP_cons_of_pos h]
      simp [List.filter_cons, himp _ h]
    · rw [List.find?_cons_of_neg _ h] at hfind
      rw [List.eraseP_cons_of_neg h]
      have hih := ih hfind
      by_cases hq : q y
      · simp [List.filter_cons, hq]
        omega
      · simp only [List.filter_cons, hq, Bool.false_eq_true, if_false]
        exact hih

/-- The statistics record `get_agent_rating_stats` builds for a present
listing (the success payload of `ratingStats`). -/
def mkStats (t : AppState) (agent_id : Nat) : StatsOut :=
  let rs := agentRatings t agent_id
  let dist : Int → Nat := fun i => (rs.filter (fun r => r.rating == i)).length
  { average_rating := round2 (if rs.length = 0 then 0
      else ((rs.map (fun r => (r.rating : ℚ))).sum) / (rs.length : ℚ))
    rating_count := rs.length
    review_count := (t.reviews.filter (fun r => r.agent_id == agent_id)).length
    dist1 := dist 1
    dist2 := dist 2
    dist3 := dist 3
    dist4 := dist 4
    dist5 := dist 5 }

/-- On a present listing, `ratingStats` returns `mkStats` and leaves the
store unchanged. -/
theorem ratingStats_eq (t : AppState) (a : Agent) (agent_id : Nat)
    (h : t.agents.find? (fun x => x.id == agent_id) = some a) :
    ratingStats t agent_id = (Except.ok (mkStats t agent_id), t) := by
  unfold ratingStats mkStats
  rw [h]

/-- C10: a successful `DeleteOwnReview` removes only the caller's
review row: ratings, listings, accounts and views are untouched, and
`RatingStats` afterwards reports the same mean, rating count and
per-star distribution, with the review count exactly one lower. -/
theorem deleteReview_frame (s : AppState) (agent_id user_id : Nat)
    (a : Agent) (rev : AgentReview)
    (hagent : s.agents.find? (fun x => x.id == agent_id) = some a)
    (hrev : s.reviews.find?
      (fun r => r.agent_id == agent_id && r.user_id == user_id) = some rev) :
    ∃ s', deleteReview s agent_id user_id = (Except.ok agent_id, s') ∧
      s'.ratings = s.ratings ∧ s'.agents = s.agents ∧ s'.users = s.users ∧
      s'.views = s.views ∧
      ∃ st st', ratingStats s agent_id = (Except.ok st, s) ∧
        ratingStats s' agent_id = (Except.ok st', s') ∧
        st'.average_rating = st.average_rating ∧
        st'.rating_count = st.rating_count ∧
        st'.dist1 = st.dist1 ∧ st'.dist2 = st.dist2 ∧ st'.dist3 = st.dist3 ∧
        st'.dist4 = st.dist4 ∧ st'.dist5 = st.dist5 ∧
        st'.review_count + 1 = st.review_count := by
  have hcount := length_filter_eraseP
    (fun r => r.agent_id == agent_id && r.user_id == user_id)
    (fun r => r.agent_id == agent_id) s.reviews rev hrev
    (fun y hy => by
      simp only [Bool.and_eq_true] at hy
      exact hy.1)
  refine ⟨{ s with reviews := s.reviews.eraseP (fun r => r.agent_id == agent_id && r.user_id == user_id) }, ?_, rfl, rfl, rfl, rfl, ?_⟩
  · unfold deleteReview
    rw [hrev]
  · exact ⟨mkStats s agent_id,
      mkStats ({ s with reviews := s.reviews.eraseP (fun r => r.agent_id == agent_id && r.user_id == user_id) }) agent_id,
      ratingStats_eq s a agent_id hagent,
      ratingStats_eq _ a agent_id hagent,
      rfl, rfl, rfl, rfl, rfl, rfl, rfl, hcount⟩

/-- Witness for C10: deleting bob's review of listing 11 in `baseState`
succeeds. -/
theorem deleteReview_frame_witness :
    ∃ s', deleteReview baseState 11 3 = (Except.ok 11, s') := by
  obtain ⟨s', h, -⟩ :=
    deleteReview_frame baseState 11 3 agentApproved
      ⟨1, 11, 3, 2, "quite disappointing", 0, 50, 50⟩ (by decide) (by decide)
  exact ⟨s', h⟩

end AIHub
